import Mathlib

/-!
Shallow embedding of the data-collector module
`realtime_plots_from_sql/data_collector/src/scripts/collect_data.py`
of the `bokeh_dynamic_plots` repository, together with theorems about its
change-detection differ, state-size ceiling, polling loop, transactional
write and schema normalizer.
-/

namespace CollectData

/--
Scalar values as they live in a pandas DataFrame cell: an integer-valued
number, a boolean, a string, or the float NaN that pandas uses for
missing/null entries.
-/
inductive PVal where
  | nan : PVal
  | int (n : Int) : PVal
  | bool (b : Bool) : PVal
  | str (s : String) : PVal
deriving DecidableEq, Repr

/--
Python/pandas scalar equality `==`: values of the same kind compare by
value, NaN compares unequal to everything including itself, and values of
different kinds compare unequal.
-/
def peq : PVal → PVal → Bool
  | PVal.int a, PVal.int b => a == b
  | PVal.bool a, PVal.bool b => a == b
  | PVal.str a, PVal.str b => a == b
  | _, _ => false

/-- A row of the renamed batch DataFrame: the three columns the differ
reads plus the `date` column that is carried through into change records. -/
structure Row where
  parking_id : PVal
  ferme : PVal
  nb_of_available_parking_spaces : PVal
  date : PVal
deriving DecidableEq, Repr

/-- A row of the `df_state` DataFrame (columns
`parking_id`, `ferme`, `nb_of_available_parking_spaces`). -/
structure StateEntry where
  parking_id : PVal
  ferme : PVal
  nb_of_available_parking_spaces : PVal
deriving DecidableEq, Repr

/-- Projection of a batch row onto the state columns: `row[columns_filter]`. -/
def rowEntry (row : Row) : StateEntry :=
  ⟨row.parking_id, row.ferme, row.nb_of_available_parking_spaces⟩

/-- First row of `df_state` whose `parking_id` equals (`==`) the given id:
`df_state.loc[df_state["parking_id"] == parking_id].iloc[0]`. -/
def findEntry (df_state : List StateEntry) (pid : PVal) : Option StateEntry :=
  df_state.find? fun e => peq e.parking_id pid

/--
`parking_state_has_changed(row, df_state)`: `True` unless `parking_id` is
present in `df_state["parking_id"].values` and the first matching state
row has `ferme` and `nb_of_available_parking_spaces` both `==`-equal to
the incoming row's values.
-/
def parking_state_has_changed (row : Row) (df_state : List StateEntry) : Bool :=
  match findEntry df_state row.parking_id with
  | some old_row =>
      !(peq old_row.ferme row.ferme &&
        peq old_row.nb_of_available_parking_spaces row.nb_of_available_parking_spaces)
  | none => true

/--
State update performed for a changed row inside `collect_changes`: if the
id is absent, `pd.concat` appends the projected row at the end; otherwise
`df_state.loc[df_state["parking_id"] == parking_id] = row[...].values`
overwrites every matching state row in place.
-/
def applyChange (df_state : List StateEntry) (row : Row) : List StateEntry :=
  if df_state.any (fun e => peq e.parking_id row.parking_id) then
    df_state.map fun e =>
      if peq e.parking_id row.parking_id then rowEntry row else e
  else df_state ++ [rowEntry row]

/--
`collect_changes(batch_df, df_state)`: iterate the batch rows in order;
each row judged changed is appended to the changes list and written into
the state (insert or in-place overwrite); unchanged rows leave the state
untouched.
-/
def collect_changes : List Row → List StateEntry → List Row × List StateEntry
  | [], df_state => ([], df_state)
  | row :: rest, df_state =>
    if parking_state_has_changed row df_state then
      let res := collect_changes rest (applyChange df_state row)
      (row :: res.1, res.2)
    else
      collect_changes rest df_state

/-- One differ tick per element of the fuel: run `collect_changes` with the
same batch against the evolving state, collecting each tick's changes list. -/
def runDiffTicks (batch : List Row) : List StateEntry → Nat → List (List Row)
  | _, 0 => []
  | st, n + 1 =>
    let out := collect_changes batch st
    out.1 :: runDiffTicks batch out.2 n

example :
    collect_changes
      [⟨PVal.str "ID1", PVal.bool false, PVal.int 17, PVal.str "t"⟩,
       ⟨PVal.str "ID2", PVal.bool false, PVal.int 12, PVal.str "t"⟩,
       ⟨PVal.str "ID3", PVal.bool false, PVal.int 10, PVal.str "t"⟩]
      [⟨PVal.str "ID1", PVal.bool false, PVal.int 15⟩,
       ⟨PVal.str "ID2", PVal.bool false, PVal.int 12⟩,
       ⟨PVal.str "ID3", PVal.bool false, PVal.int 17⟩] =
    ([⟨PVal.str "ID1", PVal.bool false, PVal.int 17, PVal.str "t"⟩,
      ⟨PVal.str "ID3", PVal.bool false, PVal.int 10, PVal.str "t"⟩],
     [⟨PVal.str "ID1", PVal.bool false, PVal.int 17⟩,
      ⟨PVal.str "ID2", PVal.bool false, PVal.int 12⟩,
      ⟨PVal.str "ID3", PVal.bool false, PVal.int 10⟩]) := by decide

/--
Kinds of exception that can propagate inside `main`, one per raise site of
the source: `EnvironmentError` from `validate_env_password`, the re-raised
psycopg2 error from `get_postgresql_connection`, the Python
`UnboundLocalError`/`NameError` raised when the `finally` block evaluates
`if conn` although `conn` was never assigned, the re-raised requests
exception from `fetch_data_and_save`, the re-raised error from
`load_new_json`, the bare `ValueError()` from `rename_columns`,
`CriticalDataFrameError` from `validate_df_state_length`, and the
re-raised insert exception from `write_to_postgresql` (which keeps its
underlying cause).
-/
inductive Err where
  | environment : Err
  | connectFail : Err
  | unboundLocal : Err
  | fetchTransport : Err
  | loadJson : Err
  | valueError : Err
  | criticalDataFrame : Err
  | dbInsert (cause : String) : Err
deriving DecidableEq, Repr

/-- `REQUEST_FREQUENCY = 60`. -/
def REQUEST_FREQUENCY : Nat := 60

/-- `REQUIRED_COLUMNS_SET`. -/
def REQUIRED_COLUMNS_SET : List String :=
  ["mv:currentValue", "ferme", "Parking_schema:identifier", "dct:date"]

/-- A raw or renamed batch DataFrame: column labels plus rows of values
addressed positionally by column index. -/
structure RawDF where
  columns : List String
  rows : List (List PVal)
deriving DecidableEq, Repr

/-- The fixed `columns_renamer` dictionary of `rename_columns`. -/
def columns_renamer : List (String × String) :=
  [("mv:currentValue", "nb_of_available_parking_spaces"),
   ("Parking_schema:identifier", "parking_id"),
   ("dct:date", "date")]

/-- Rename a single column label through `columns_renamer`; labels not in
the mapping are kept. -/
def renameCol (c : String) : String :=
  (List.lookup c columns_renamer).getD c

/--
`rename_columns(batch_df, required_columns_set)`: if the required column
set is not a subset of the batch columns, raise a bare `ValueError()`
(the exception object carries no payload and the log message names no
missing column); otherwise return `batch_df.rename(columns=...)`, which
relabels columns and leaves every cell value untouched.
-/
def rename_columns (batch_df : RawDF) : Except Err RawDF :=
  if REQUIRED_COLUMNS_SET.all (fun c => batch_df.columns.contains c) then
    Except.ok ⟨batch_df.columns.map renameCol, batch_df.rows⟩
  else Except.error Err.valueError

/-- Value of a named column in a positional row; a missing label or a
short row reads as pandas NaN. -/
def colVal (cols : List String) (vals : List PVal) (name : String) : PVal :=
  match cols.findIdx? (fun c => c == name) with
  | some i => vals.getD i PVal.nan
  | none => PVal.nan

/-- View one positional row of the renamed DataFrame as the record the
differ iterates over. -/
def toRow (cols : List String) (vals : List PVal) : Row :=
  ⟨colVal cols vals "parking_id",
   colVal cols vals "ferme",
   colVal cols vals "nb_of_available_parking_spaces",
   colVal cols vals "date"⟩

/-- Rows of a renamed DataFrame as differ records, in order. -/
def toRows (df : RawDF) : List Row :=
  df.rows.map (toRow df.columns)

/--
`validate_df_state_length(df_state)`: raises `CriticalDataFrameError` when
the state has strictly more than 30 rows, and returns normally otherwise.
-/
def validate_df_state_length (df_state : List StateEntry) : Except Err Unit :=
  if 30 < df_state.length then Except.error Err.criticalDataFrame
  else Except.ok ()

/-- Outcome of the HTTP GET of one tick, as the environment provides it:
a 200 response whose JSON parses to a DataFrame, a non-200 status code, or
a transport-level exception (connection failure, invalid payload, ...). -/
inductive FetchResponse where
  | success (data : RawDF) : FetchResponse
  | badStatus (code : Nat) : FetchResponse
  | transportFault : FetchResponse
deriving DecidableEq, Repr

/--
`fetch_data_and_save(request_id, api_url, output_path)`: the output
directory is wiped first, so afterwards it holds the tick's JSON file iff
one was written. On a 200 response the parsed payload is dumped to the
file (`ok (some data)`); on any other status code the function only logs
and returns, leaving the directory empty (`ok none` — no exception is
raised); on a transport-level exception the error is logged and re-raised.
-/
def fetch_data_and_save : FetchResponse → Except Err (Option RawDF)
  | FetchResponse.success data => Except.ok (some data)
  | FetchResponse.badStatus _ => Except.ok none
  | FetchResponse.transportFault => Except.error Err.fetchTransport

/-- `load_new_json(output_path, request_id)`: reads back the JSON file the
fetcher just wrote; the round-trip returns the saved payload. -/
def load_new_json (saved : RawDF) : Except Err RawDF :=
  Except.ok saved

/-- A row of the persistence table, as bound by the INSERT statement:
`(parking_id, nb_of_available_parking_spaces, ferme, date)`. -/
def rowTuple (r : Row) : List PVal :=
  [r.parking_id, r.nb_of_available_parking_spaces, r.ferme, r.date]

/-- The PostgreSQL store as seen through one connection: rows committed by
past transactions, and rows inserted but not yet committed. -/
structure DB where
  committed : List (List PVal)
  pending : List (List PVal)
deriving DecidableEq, Repr

/-- `cursor.execute(INSERT ...)` for one change record: adds the bound row
to the open transaction. -/
def execInsert (db : DB) (r : Row) : DB :=
  ⟨db.committed, db.pending ++ [rowTuple r]⟩

/-- Run the INSERT loop of `write_to_postgresql`. The environment chooses
whether some insert fails: `some (i, cause)` makes the i-th `execute` call
raise an exception whose text is `cause`; `none` lets every insert
succeed. -/
def runInserts : DB → List Row → Option (Nat × String) → Except String DB
  | db, [], _ => Except.ok db
  | db, r :: rs, none => runInserts (execInsert db r) rs none
  | _, _ :: _, some (0, c) => Except.error c
  | db, r :: rs, some (i + 1, c) => runInserts (execInsert db r) rs (some (i, c))

/--
`write_to_postgresql(conn, cursor, changes_list, table_name)`: executes
one INSERT per change record, then `conn.commit()`; if any insert raises,
`conn.rollback()` discards the whole uncommitted batch, the error is
logged with `str(e)` and the original exception is re-raised.
-/
def write_to_postgresql (db : DB) (changes_list : List Row)
    (failAt : Option (Nat × String)) : DB × Except Err Unit :=
  match runInserts db changes_list failAt with
  | Except.ok db1 => (⟨db1.committed ++ db1.pending, []⟩, Except.ok ())
  | Except.error c => (⟨db.committed, []⟩, Except.error (Err.dbInsert c))

deriving instance DecidableEq for Except

/-- What the outside world does during one loop iteration: the HTTP
response, and whether/where the database INSERT loop fails. -/
structure TickInput where
  response : FetchResponse
  dbFail : Option (Nat × String)
deriving DecidableEq, Repr

/-- Result of the body of one `while True` iteration of `main`. -/
structure TickOut where
  df_state : List StateEntry
  db : DB
  result : Except Err (List Row)
deriving DecidableEq, Repr

/--
The try-block body of one iteration of `main`'s loop:
fetch, then — only if the output directory is non-empty — load, rename,
diff, validate the state length, and, when the changes list is non-empty,
write to PostgreSQL. `df_state` is reassigned by the diff before the
length validation and the write run, so those two failure points leave the
updated state behind, while earlier failures leave it untouched.
-/
def process_tick (df_state : List StateEntry) (db : DB) (inp : TickInput) :
    TickOut :=
  match fetch_data_and_save inp.response with
  | Except.error e => ⟨df_state, db, Except.error e⟩
  | Except.ok none => ⟨df_state, db, Except.ok []⟩
  | Except.ok (some saved) =>
    match load_new_json saved with
    | Except.error e => ⟨df_state, db, Except.error e⟩
    | Except.ok raw =>
      match rename_columns raw with
      | Except.error e => ⟨df_state, db, Except.error e⟩
      | Except.ok renamed =>
        let out := collect_changes (toRows renamed) df_state
        match validate_df_state_length out.2 with
        | Except.error e => ⟨out.2, db, Except.error e⟩
        | Except.ok _ =>
          if out.1.isEmpty then ⟨out.2, db, Except.ok out.1⟩
          else
            match write_to_postgresql db out.1 inp.dbFail with
            | (db1, Except.ok _) => ⟨out.2, db1, Except.ok out.1⟩
            | (db1, Except.error e) => ⟨out.2, db1, Except.error e⟩

/-- Loop-local variables of `main`: the state DataFrame, the request
counter, and whether `break` has been executed. -/
structure LoopState where
  df_state : List StateEntry
  request_id : Nat
  terminated : Bool
deriving DecidableEq, Repr

/-- Observable summary of one loop iteration: the tick's outcome and how
long the loop slept afterwards (`none` when it broke out instead). -/
structure TickEvent where
  result : Except Err (List Row)
  sleep : Option Nat
deriving DecidableEq, Repr

/--
One iteration of `main`'s `while True` loop with its two except clauses:
on normal completion sleep `REQUEST_FREQUENCY` and increment `request_id`;
on `CriticalDataFrameError` log and `break`; on any other exception log,
sleep 60 seconds and continue with `request_id` unchanged.
-/
def loop_body (ls : LoopState) (db : DB) (inp : TickInput) :
    LoopState × DB × TickEvent :=
  let t := process_tick ls.df_state db inp
  match t.result with
  | Except.ok _ =>
      (⟨t.df_state, ls.request_id + 1, false⟩, t.db,
       ⟨t.result, some REQUEST_FREQUENCY⟩)
  | Except.error Err.criticalDataFrame =>
      (⟨t.df_state, ls.request_id, true⟩, t.db, ⟨t.result, none⟩)
  | Except.error _ =>
      (⟨t.df_state, ls.request_id, false⟩, t.db, ⟨t.result, some 60⟩)

/--
The polling loop observed for finitely many ticks: consume tick inputs in
order, stopping as soon as an iteration executes `break`.
-/
def run : LoopState → DB → List TickInput → LoopState × DB × List TickEvent
  | ls, db, [] => (ls, db, [])
  | ls, db, inp :: rest =>
    let s := loop_body ls db inp
    if s.1.terminated then (s.1, s.2.1, [s.2.2])
    else
      let t := run s.1 s.2.1 rest
      (t.1, t.2.1, s.2.2 :: t.2.2)

/-- `validate_env_password(pgsql_config_dict)`: raise `EnvironmentError`
when no password is set. -/
def validate_env_password (passwordSet : Bool) : Except Err Unit :=
  if passwordSet then Except.ok () else Except.error Err.environment

/-- How the single connection attempt of `get_postgresql_connection` goes:
both calls succeed, `psycopg2.connect` itself raises, or the connection is
created but `conn.cursor()` raises. -/
inductive ConnectOutcome where
  | success : ConnectOutcome
  | connectRaises : ConnectOutcome
  | cursorRaises : ConnectOutcome
deriving DecidableEq, Repr

/--
`get_postgresql_connection(pgsql_config_dict)`: returns whether a
connection object was actually created, and either success or the
re-raised psycopg2 error. When `conn.cursor()` raises, the already-created
connection object exists but the function still raises, so the caller's
`conn, cursor = ...` assignment never happens.
-/
def get_postgresql_connection : ConnectOutcome → Bool × Except Err Unit
  | ConnectOutcome.success => (true, Except.ok ())
  | ConnectOutcome.connectRaises => (false, Except.error Err.connectFail)
  | ConnectOutcome.cursorRaises => (true, Except.error Err.connectFail)

/-- Everything the environment decides about one execution of `main`. -/
structure MainEnv where
  passwordSet : Bool
  connect : ConnectOutcome
  ticks : List TickInput
deriving DecidableEq, Repr

/-- Observable outcome of `main`: the exception escaping it (if any),
whether `conn.close()` ran, whether a created connection was left open,
and the per-tick events of the loop. -/
structure MainResult where
  raised : Option Err
  connClosed : Bool
  connLeaked : Bool
  events : List TickEvent
deriving DecidableEq, Repr

/--
`main()`: validate the password (before the try/finally, so its failure
propagates directly); then attempt the connection inside the try block.
If `get_postgresql_connection` raises, the local `conn` was never
assigned, so the `finally` clause `if conn:` raises `UnboundLocalError`
— `conn.close()` is never reached, and in the `cursorRaises` case the
created connection object is leaked. When the connection succeeds, the
loop runs; it only ends via `break`, after which the `finally` clause
closes the connection.
-/
def main (env : MainEnv) : MainResult :=
  match validate_env_password env.passwordSet with
  | Except.error e => ⟨some e, false, false, []⟩
  | Except.ok _ =>
    let c := get_postgresql_connection env.connect
    match c.2 with
    | Except.error _ => ⟨some Err.unboundLocal, false, c.1, []⟩
    | Except.ok _ =>
      let t := run ⟨[], 1, false⟩ ⟨[], []⟩ env.ticks
      ⟨none, true, false, t.2.2⟩

/-! Basic facts about the pandas scalar equality `peq`. -/

theorem peq_eq_of_eq_true {a b : PVal} (h : peq a b = true) : a = b := by
  cases a <;> cases b <;> simp_all [peq]

theorem peq_symm_true {a b : PVal} (h : peq a b = true) : peq b a = true := by
  have e := peq_eq_of_eq_true h
  subst e
  exact h

theorem peq_symm_false {a b : PVal} (h : peq a b = false) : peq b a = false := by
  cases hba : peq b a with
  | false => rfl
  | true => rw [peq_symm_true hba] at h; cases h

theorem peq_nan_right (x : PVal) : peq x PVal.nan = false := by
  cases x <;> rfl

/-! Facts about `findEntry` under the state updates the differ performs. -/

theorem selfEq_of_found {st : List StateEntry} {pid : PVal} {old : StateEntry}
    (h : findEntry st pid = some old) : peq pid pid = true := by
  have hp := List.find?_some h
  have he := peq_eq_of_eq_true hp
  rw [he] at hp
  exact hp

theorem findEntry_replace (st : List StateEntry) (r : Row) (pid : PVal)
    (hne : peq r.parking_id pid = false) :
    findEntry
      (st.map fun e => if peq e.parking_id r.parking_id then rowEntry r else e)
      pid = findEntry st pid := by
  induction st with
  | nil => rfl
  | cons e es IH =>
    cases hpe : peq e.parking_id r.parking_id with
    | true =>
      have he := peq_eq_of_eq_true hpe
      have hep : peq e.parking_id pid = false := by rw [he]; exact hne
      simp only [findEntry, List.map_cons, hpe, if_true] at *
      rw [List.find?_cons_of_neg _ (by simp [rowEntry, hne]),
        List.find?_cons_of_neg _ (by simp [hep])]
      exact IH
    | false =>
      have hh : (if peq e.parking_id r.parking_id = true then rowEntry r else e) = e := by
        simp [hpe]
      simp only [findEntry, List.map_cons, hh] at *
      cases hp : peq e.parking_id pid with
      | true =>
        rw [List.find?_cons_of_pos _ (by simp [hp]),
          List.find?_cons_of_pos _ (by simp [hp])]
      | false =>
        rw [List.find?_cons_of_neg _ (by simp [hp]),
          List.find?_cons_of_neg _ (by simp [hp])]
        exact IH

theorem findEntry_applyChange (st : List StateEntry) (r : Row) (pid : PVal)
    (hne : peq r.parking_id pid = false) :
    findEntry (applyChange st r) pid = findEntry st pid := by
  unfold applyChange
  by_cases h : st.any (fun e => peq e.parking_id r.parking_id) = true
  · rw [if_pos h]
    exact findEntry_replace st r pid hne
  · rw [if_neg h]
    unfold findEntry
    rw [List.find?_append]
    have h2 : List.find? (fun e => peq e.parking_id pid) [rowEntry r] = none := by
      simp [rowEntry, hne]
    rw [h2]
    cases List.find? (fun e => peq e.parking_id pid) st <;> rfl

theorem findEntry_collect (batch : List Row) :
    ∀ (st : List StateEntry) (pid : PVal),
      (∀ r ∈ batch, peq r.parking_id pid = false) →
      findEntry (collect_changes batch st).2 pid = findEntry st pid := by
  induction batch with
  | nil => intro st pid _; rfl
  | cons row rest IH =>
    intro st pid h
    have hhead : peq row.parking_id pid = false := h row (List.mem_cons_self row rest)
    have htail : ∀ r ∈ rest, peq r.parking_id pid = false :=
      fun r hr => h r (List.mem_cons_of_mem row hr)
    cases hc : parking_state_has_changed row st with
    | true =>
      simp only [collect_changes, hc, if_true]
      rw [IH (applyChange st row) pid htail]
      exact findEntry_applyChange st row pid hhead
    | false =>
      simp only [collect_changes, hc, if_false]
      exact IH st pid htail

theorem mem_batch_of_mem_changes {r : Row} :
    ∀ {batch : List Row} {st : List StateEntry},
      r ∈ (collect_changes batch st).1 → r ∈ batch := by
  intro batch
  induction batch with
  | nil => intro st h; simp [collect_changes] at h
  | cons row rest IH =>
    intro st h
    cases hc : parking_state_has_changed row st with
    | true =>
      simp only [collect_changes, hc, if_true] at h
      rcases List.mem_cons.mp h with h1 | h1
      · rw [h1]; exact List.mem_cons_self row rest
      · exact List.mem_cons_of_mem row (IH h1)
    | false =>
      simp only [collect_changes, hc, if_false] at h
      exact List.mem_cons_of_mem row (IH h)

theorem not_changed_elim {r : Row} {st : List StateEntry}
    (h : parking_state_has_changed r st = false) :
    ∃ old, findEntry st r.parking_id = some old ∧
      peq old.ferme r.ferme = true ∧
      peq old.nb_of_available_parking_spaces
        r.nb_of_available_parking_spaces = true := by
  unfold parking_state_has_changed at h
  cases hf : findEntry st r.parking_id with
  | none => rw [hf] at h; cases h
  | some old =>
    rw [hf] at h
    simp only [Bool.not_eq_false', Bool.and_eq_true] at h
    exact ⟨old, rfl, h.1, h.2⟩

theorem changed_congr {r : Row} {st1 st2 : List StateEntry}
    (h : findEntry st1 r.parking_id = findEntry st2 r.parking_id) :
    parking_state_has_changed r st1 = parking_state_has_changed r st2 := by
  unfold parking_state_has_changed
  rw [h]

theorem changed_iff_spec {r : Row} {st : List StateEntry} :
    parking_state_has_changed r st = true ↔
      (findEntry st r.parking_id = none ∨
       ∃ e, findEntry st r.parking_id = some e ∧
         (peq e.ferme r.ferme = false ∨
          peq e.nb_of_available_parking_spaces
            r.nb_of_available_parking_spaces = false)) := by
  unfold parking_state_has_changed
  cases hf : findEntry st r.parking_id with
  | none => simp
  | some old =>
    cases hx : peq old.ferme r.ferme <;>
      cases hy : peq old.nb_of_available_parking_spaces
        r.nb_of_available_parking_spaces <;>
      simp [hx, hy]

/-- Core inductive fact behind the differ's emit-iff-changed contract: when
no two batch records share a `==`-equal `parking_id`, a record is in the
changes output exactly when `parking_state_has_changed` holds of it against
the state the whole call started from. -/
theorem mem_changes_iff_aux {r : Row} :
    ∀ (batch : List Row),
      batch.Pairwise (fun a b => peq a.parking_id b.parking_id = false) →
      r ∈ batch →
      ∀ st : List StateEntry,
        (r ∈ (collect_changes batch st).1 ↔
          parking_state_has_changed r st = true) := by
  intro batch
  induction batch with
  | nil => intro _ h; cases h
  | cons row rest IH =>
    intro hpw hr st
    rcases List.pairwise_cons.mp hpw with ⟨hhead, htl⟩
    by_cases hreq : r = row
    · subst hreq
      cases hc : parking_state_has_changed r st with
      | true =>
        simp only [collect_changes, hc, if_true]
        simp [List.mem_cons]
      | false =>
        simp only [collect_changes, hc, if_false]
        constructor
        · intro hmem
          have hrt : r ∈ rest := mem_batch_of_mem_changes hmem
          have h1 : peq r.parking_id r.parking_id = false := hhead r hrt
          rcases not_changed_elim hc with ⟨old, hfind, _, _⟩
          have h2 := selfEq_of_found hfind
          rw [h1] at h2
          cases h2
        · intro h1
          cases h1
    · have hrt : r ∈ rest := (List.mem_cons.mp hr).resolve_left hreq
      have hne : peq row.parking_id r.parking_id = false := hhead r hrt
      cases hc : parking_state_has_changed row st with
      | true =>
        simp only [collect_changes, hc, if_true]
        rw [List.mem_cons]
        have hiff := IH htl hrt (applyChange st row)
        rw [changed_congr (findEntry_applyChange st row r.parking_id hne)] at hiff
        simp [hreq, hiff]
      | false =>
        simp only [collect_changes, hc, if_false]
        exact IH htl hrt st

/-- A record whose state row matches it exactly is judged unchanged. -/
theorem matched_not_changed {r : Row} {st : List StateEntry} {e : StateEntry}
    (he : findEntry st r.parking_id = some e)
    (hf : peq e.ferme r.ferme = true)
    (hn : peq e.nb_of_available_parking_spaces
        r.nb_of_available_parking_spaces = true) :
    parking_state_has_changed r st = false := by
  unfold parking_state_has_changed
  rw [he]
  simp [hf, hn]

theorem findEntry_replace_self :
    ∀ (st : List StateEntry) (r : Row),
      st.any (fun e => peq e.parking_id r.parking_id) = true →
      findEntry
        (st.map fun e => if peq e.parking_id r.parking_id then rowEntry r else e)
        r.parking_id = some (rowEntry r) := by
  intro st
  induction st with
  | nil => intro r h; cases h
  | cons e es IH =>
    intro r hmem
    cases hpe : peq e.parking_id r.parking_id with
    | true =>
      have heq := peq_eq_of_eq_true hpe
      have hself : peq r.parking_id r.parking_id = true := by
        rw [heq] at hpe; exact hpe
      simp only [List.map_cons, hpe, if_true, findEntry]
      rw [List.find?_cons_of_pos _ (by simp [rowEntry, hself])]
    | false =>
      have hmem2 : es.any (fun x => peq x.parking_id r.parking_id) = true := by
        rcases List.any_eq_true.mp hmem with ⟨x, hx, hpx⟩
        rcases List.mem_cons.mp hx with h1 | h1
        · rw [h1] at hpx; rw [hpx] at hpe; cases hpe
        · exact List.any_eq_true.mpr ⟨x, h1, hpx⟩
      have hh : (if peq e.parking_id r.parking_id = true then rowEntry r else e) = e := by
        simp [hpe]
      simp only [List.map_cons, hh, findEntry] at *
      rw [List.find?_cons_of_neg _ (by simp [hpe])]
      exact IH r hmem2

theorem findEntry_applyChange_self (st : List StateEntry) (r : Row)
    (hself : peq r.parking_id r.parking_id = true) :
    findEntry (applyChange st r) r.parking_id = some (rowEntry r) := by
  unfold applyChange
  by_cases h : st.any (fun e => peq e.parking_id r.parking_id) = true
  · rw [if_pos h]
    exact findEntry_replace_self st r h
  · rw [if_neg h]
    have hnone : findEntry st r.parking_id = none := by
      unfold findEntry
      rw [List.find?_eq_none]
      intro x hx hpx
      exact h (List.any_eq_true.mpr ⟨x, hx, by simpa using hpx⟩)
    unfold findEntry at *
    rw [List.find?_append, hnone]
    simp [rowEntry, hself]

/-- After the differ has processed a self-comparable record once, the state
row found for its id matches the record exactly. -/
theorem step_matched (st : List StateEntry) (r : Row)
    (hid : peq r.parking_id r.parking_id = true)
    (hf : peq r.ferme r.ferme = true)
    (hn : peq r.nb_of_available_parking_spaces
        r.nb_of_available_parking_spaces = true) :
    ∃ e, findEntry
        (if parking_state_has_changed r st then applyChange st r else st)
        r.parking_id = some e ∧
      peq e.ferme r.ferme = true ∧
      peq e.nb_of_available_parking_spaces
        r.nb_of_available_parking_spaces = true := by
  cases hc : parking_state_has_changed r st with
  | true =>
    rw [if_pos rfl]
    exact ⟨rowEntry r, findEntry_applyChange_self st r hid, hf, hn⟩
  | false =>
    rw [if_neg (by simp)]
    exact not_changed_elim hc

/-- Running the differ twice with the same batch: the second run detects
nothing and keeps the state, provided every record's compared fields are
self-comparable (no NaN) and no two records share a `==`-equal id. -/
theorem collect_changes_idem_aux :
    ∀ (batch : List Row),
      (∀ r ∈ batch, peq r.parking_id r.parking_id = true ∧
        peq r.ferme r.ferme = true ∧
        peq r.nb_of_available_parking_spaces
          r.nb_of_available_parking_spaces = true) →
      batch.Pairwise (fun a b => peq a.parking_id b.parking_id = false) →
      ∀ st : List StateEntry,
        collect_changes batch (collect_changes batch st).2 =
          ([], (collect_changes batch st).2) := by
  intro batch
  induction batch with
  | nil => intro _ _ st; rfl
  | cons row rest IH =>
    intro hself hpw st
    rcases List.pairwise_cons.mp hpw with ⟨hhead, htl⟩
    rcases hself row (List.mem_cons_self row rest) with ⟨hid, hf, hn⟩
    have hself2 : ∀ r ∈ rest, peq r.parking_id r.parking_id = true ∧
        peq r.ferme r.ferme = true ∧
        peq r.nb_of_available_parking_spaces
          r.nb_of_available_parking_spaces = true :=
      fun r hr => hself r (List.mem_cons_of_mem row hr)
    have hfr : ∀ p ∈ rest, peq p.parking_id row.parking_id = false :=
      fun p hp => peq_symm_false (hhead p hp)
    rcases step_matched st row hid hf hn with ⟨e, he, hef, hen⟩
    cases hc : parking_state_has_changed row st with
    | true =>
      rw [if_pos hc] at he
      have heF : findEntry
          (collect_changes rest (applyChange st row)).2 row.parking_id = some e := by
        rw [findEntry_collect rest (applyChange st row) row.parking_id hfr]
        exact he
      have hcF := matched_not_changed heF hef hen
      simp only [collect_changes, hc, if_true]
      simp only [collect_changes, hcF, if_false]
      exact IH hself2 htl (applyChange st row)
    | false =>
      rw [if_neg (by simp [hc])] at he
      have heF : findEntry (collect_changes rest st).2 row.parking_id = some e := by
        rw [findEntry_collect rest st row.parking_id hfr]
        exact he
      have hcF := matched_not_changed heF hef hen
      simp only [collect_changes, hc, hcF, Bool.false_eq_true, if_false]
      exact IH hself2 htl st

/-- A record that matches its state row exactly is never emitted and the
state row found for its id survives the whole batch unchanged, provided no
two batch records share a `==`-equal id. -/
theorem exact_match_aux {r : Row} {e : StateEntry}
    (hf : peq e.ferme r.ferme = true)
    (hn : peq e.nb_of_available_parking_spaces
        r.nb_of_available_parking_spaces = true) :
    ∀ (batch : List Row),
      batch.Pairwise (fun a b => peq a.parking_id b.parking_id = false) →
      r ∈ batch →
      ∀ st : List StateEntry,
        findEntry st r.parking_id = some e →
        r ∉ (collect_changes batch st).1 ∧
          findEntry (collect_changes batch st).2 r.parking_id = some e := by
  intro batch
  induction batch with
  | nil => intro _ h; cases h
  | cons row rest IH =>
    intro hpw hr st he
    rcases List.pairwise_cons.mp hpw with ⟨hhead, htl⟩
    by_cases hreq : r = row
    · subst hreq
      have hc : parking_state_has_changed r st = false := matched_not_changed he hf hn
      have hfr : ∀ p ∈ rest, peq p.parking_id r.parking_id = false :=
        fun p hp => peq_symm_false (hhead p hp)
      constructor
      · simp only [collect_changes, hc, Bool.false_eq_true, if_false]
        intro hmem
        have hrt : r ∈ rest := mem_batch_of_mem_changes hmem
        have h1 : peq r.parking_id r.parking_id = false := hhead r hrt
        have h2 := selfEq_of_found he
        rw [h1] at h2
        cases h2
      · simp only [collect_changes, hc, Bool.false_eq_true, if_false]
        rw [findEntry_collect rest st r.parking_id hfr]
        exact he
    · have hrt : r ∈ rest := (List.mem_cons.mp hr).resolve_left hreq
      have hne : peq row.parking_id r.parking_id = false := hhead r hrt
      cases hc : parking_state_has_changed row st with
      | true =>
        have he1 : findEntry (applyChange st row) r.parking_id = some e := by
          rw [findEntry_applyChange st row r.parking_id hne]
          exact he
        rcases IH htl hrt (applyChange st row) he1 with ⟨hm, hE⟩
        constructor
        · simp only [collect_changes, hc, if_true]
          intro hmem
          rcases List.mem_cons.mp hmem with h1 | h1
          · exact hreq h1
          · exact hm h1
        · simp only [collect_changes, hc, if_true]
          exact hE
      | false =>
        rcases IH htl hrt st he with ⟨hm, hE⟩
        constructor
        · simp only [collect_changes, hc, Bool.false_eq_true, if_false]
          exact hm
        · simp only [collect_changes, hc, Bool.false_eq_true, if_false]
          exact hE

/-- A batch in which every record matches its state row exactly is a no-op
for the differ. -/
theorem all_match_noop :
    ∀ (batch : List Row) (st : List StateEntry),
      (∀ r ∈ batch, ∃ e, findEntry st r.parking_id = some e ∧
        peq e.ferme r.ferme = true ∧
        peq e.nb_of_available_parking_spaces
          r.nb_of_available_parking_spaces = true) →
      collect_changes batch st = ([], st) := by
  intro batch
  induction batch with
  | nil => intro st _; rfl
  | cons row rest IH =>
    intro st hall
    rcases hall row (List.mem_cons_self row rest) with ⟨e, he, hf, hn⟩
    have hc : parking_state_has_changed row st = false := matched_not_changed he hf hn
    simp only [collect_changes, hc, Bool.false_eq_true, if_false]
    exact IH st (fun r hr => hall r (List.mem_cons_of_mem row hr))

/-- A record whose stored available-spaces value is NaN is always judged
changed once its id is present, because `NaN == NaN` is false. -/
theorem nan_changed {r : Row} {st : List StateEntry}
    (hnan : r.nb_of_available_parking_spaces = PVal.nan)
    (hfound : ∃ e, findEntry st r.parking_id = some e) :
    parking_state_has_changed r st = true := by
  rcases hfound with ⟨e, he⟩
  unfold parking_state_has_changed
  rw [he, hnan]
  simp [peq_nan_right]

theorem replace_fixpoint :
    ∀ (st : List StateEntry) (r : Row),
      (∀ e ∈ st, peq e.parking_id r.parking_id = true → e = rowEntry r) →
      (st.map fun e => if peq e.parking_id r.parking_id then rowEntry r else e) = st := by
  intro st
  induction st with
  | nil => intro _ _; rfl
  | cons e es IH =>
    intro r hall
    rw [List.map_cons]
    have h1 : (if peq e.parking_id r.parking_id = true then rowEntry r else e) = e := by
      cases hpe : peq e.parking_id r.parking_id with
      | true =>
        rw [if_pos rfl]
        exact (hall e (List.mem_cons_self e es) hpe).symm
      | false => rw [if_neg (by simp)]
    rw [h1, IH r (fun x hx => hall x (List.mem_cons_of_mem e hx))]

theorem applyChange_fixpoint (st : List StateEntry) (r : Row)
    (hex : st.any (fun e => peq e.parking_id r.parking_id) = true)
    (hall : ∀ e ∈ st, peq e.parking_id r.parking_id = true → e = rowEntry r) :
    applyChange st r = st := by
  unfold applyChange
  rw [if_pos hex]
  exact replace_fixpoint st r hall

/-- One differ tick over a single NaN-valued record whose state row already
equals its projection: the record is re-emitted and the state is unchanged. -/
theorem nan_tick (st : List StateEntry) (r : Row)
    (hnan : r.nb_of_available_parking_spaces = PVal.nan)
    (hex : st.any (fun e => peq e.parking_id r.parking_id) = true)
    (hall : ∀ e ∈ st, peq e.parking_id r.parking_id = true → e = rowEntry r) :
    collect_changes [r] st = ([r], st) := by
  have hfound : ∃ e, findEntry st r.parking_id = some e := by
    rcases List.any_eq_true.mp hex with ⟨x, hx, hpx⟩
    have h1 : (List.find? (fun e => peq e.parking_id r.parking_id) st).isSome :=
      List.find?_isSome.mpr ⟨x, hx, by simpa using hpx⟩
    rcases Option.isSome_iff_exists.mp h1 with ⟨e, he⟩
    exact ⟨e, he⟩
  have hc := nan_changed hnan hfound
  simp only [collect_changes, hc, if_true, applyChange_fixpoint st r hex hall]

theorem nan_ticks (st : List StateEntry) (r : Row)
    (hnan : r.nb_of_available_parking_spaces = PVal.nan)
    (hex : st.any (fun e => peq e.parking_id r.parking_id) = true)
    (hall : ∀ e ∈ st, peq e.parking_id r.parking_id = true → e = rowEntry r) :
    ∀ n, ∀ cs ∈ runDiffTicks [r] st n, cs = [r] := by
  intro n
  induction n with
  | zero => intro cs h; cases h
  | succ m IH =>
    intro cs h
    rw [runDiffTicks, nan_tick st r hnan hex hall] at h
    rcases List.mem_cons.mp h with h1 | h1
    · exact h1
    · exact IH cs h1

/-! Lemmas about the persistence sink. -/

theorem runInserts_none :
    ∀ (rs : List Row) (db : DB),
      runInserts db rs none =
        Except.ok ⟨db.committed, db.pending ++ rs.map rowTuple⟩ := by
  intro rs
  induction rs with
  | nil => intro db; simp [runInserts]
  | cons r rest IH =>
    intro db
    rw [runInserts, IH]
    simp [execInsert]

theorem runInserts_fail :
    ∀ (rs : List Row) (i : Nat) (c : String) (db : DB), i < rs.length →
      runInserts db rs (some (i, c)) = Except.error c := by
  intro rs
  induction rs with
  | nil => intro i c db h; cases h
  | cons r rest IH =>
    intro i c db h
    cases i with
    | zero => rfl
    | succ j =>
      rw [runInserts]
      exact IH j c (execInsert db r) (Nat.lt_of_succ_lt_succ h)

theorem write_ok (db : DB) (changes : List Row) :
    write_to_postgresql db changes none =
      (⟨db.committed ++ (db.pending ++ changes.map rowTuple), []⟩, Except.ok ()) := by
  unfold write_to_postgresql
  rw [runInserts_none]

theorem write_fail (db : DB) (changes : List Row) (i : Nat) (c : String)
    (h : i < changes.length) :
    write_to_postgresql db changes (some (i, c)) =
      (⟨db.committed, []⟩, Except.error (Err.dbInsert c)) := by
  unfold write_to_postgresql
  rw [runInserts_fail changes i c db h]

theorem write_committed_of_error (db db1 : DB) (changes : List Row)
    (failAt : Option (Nat × String)) (e : Err)
    (h : write_to_postgresql db changes failAt = (db1, Except.error e)) :
    db1.committed = db.committed := by
  unfold write_to_postgresql at h
  cases hri : runInserts db changes failAt with
  | ok db2 => rw [hri] at h; cases h
  | error c => rw [hri] at h; cases h; rfl

/-! Lemmas about `process_tick`, `loop_body` and `run`. -/

theorem process_tick_transport (df : List StateEntry) (db : DB)
    (f : Option (Nat × String)) :
    process_tick df db ⟨FetchResponse.transportFault, f⟩ =
      ⟨df, db, Except.error Err.fetchTransport⟩ := rfl

theorem process_tick_badStatus (df : List StateEntry) (db : DB) (c : Nat)
    (f : Option (Nat × String)) :
    process_tick df db ⟨FetchResponse.badStatus c, f⟩ =
      ⟨df, db, Except.ok []⟩ := rfl

theorem write_error_is_dbInsert (db db1 : DB) (changes : List Row)
    (failAt : Option (Nat × String)) (e : Err)
    (h : write_to_postgresql db changes failAt = (db1, Except.error e)) :
    ∃ c, e = Err.dbInsert c := by
  unfold write_to_postgresql at h
  cases hri : runInserts db changes failAt with
  | ok d => rw [hri] at h; cases h
  | error c =>
    rw [hri] at h
    injection h with h1 h2
    injection h2 with h3
    exact ⟨c, h3.symm⟩

theorem process_tick_ceiling (df : List StateEntry) (db : DB) (data renamed : RawDF)
    (f : Option (Nat × String)) (hrn : rename_columns data = Except.ok renamed)
    (hlen : 30 < ((collect_changes (toRows renamed) df).2).length) :
    process_tick df db ⟨FetchResponse.success data, f⟩ =
      ⟨(collect_changes (toRows renamed) df).2, db,
        Except.error Err.criticalDataFrame⟩ := by
  simp only [process_tick, fetch_data_and_save, load_new_json, hrn,
    validate_df_state_length]
  rw [if_pos hlen]

theorem rename_columns_error_kind {d : RawDF} {e : Err}
    (h : rename_columns d = Except.error e) : e = Err.valueError := by
  unfold rename_columns at h
  by_cases hc : REQUIRED_COLUMNS_SET.all (fun c => d.columns.contains c) = true
  · rw [if_pos hc] at h; cases h
  · rw [if_neg hc] at h
    injection h with h1
    exact h1.symm

theorem process_tick_success_eq (df : List StateEntry) (db : DB)
    (data renamed : RawDF) (f : Option (Nat × String))
    (hrn : rename_columns data = Except.ok renamed) :
    process_tick df db ⟨FetchResponse.success data, f⟩ =
      (if 30 < ((collect_changes (toRows renamed) df).2).length then
        ⟨(collect_changes (toRows renamed) df).2, db,
          Except.error Err.criticalDataFrame⟩
      else if ((collect_changes (toRows renamed) df).1).isEmpty then
        ⟨(collect_changes (toRows renamed) df).2, db,
          Except.ok (collect_changes (toRows renamed) df).1⟩
      else
        ⟨(collect_changes (toRows renamed) df).2,
         (write_to_postgresql db (collect_changes (toRows renamed) df).1 f).1,
         match (write_to_postgresql db (collect_changes (toRows renamed) df).1 f).2 with
         | Except.ok _ => Except.ok (collect_changes (toRows renamed) df).1
         | Except.error e => Except.error e⟩) := by
  simp only [process_tick, fetch_data_and_save, load_new_json, hrn,
    validate_df_state_length]
  by_cases hlen : 30 < ((collect_changes (toRows renamed) df).2).length
  · rw [if_pos hlen, if_pos hlen]
  · rw [if_neg hlen, if_neg hlen]
    by_cases hemp : ((collect_changes (toRows renamed) df).1).isEmpty = true
    · rw [if_pos hemp, if_pos hemp]
    · rw [if_neg hemp, if_neg hemp]
      cases hw : write_to_postgresql db (collect_changes (toRows renamed) df).1 f with
      | mk db1 res => cases res <;> rfl

theorem process_tick_critical_length (df : List StateEntry) (db : DB)
    (inp : TickInput)
    (h : (process_tick df db inp).result = Except.error Err.criticalDataFrame) :
    30 < (process_tick df db inp).df_state.length := by
  obtain ⟨resp, f⟩ := inp
  cases resp with
  | transportFault => rw [process_tick_transport] at h; cases h
  | badStatus c => rw [process_tick_badStatus] at h; cases h
  | success data =>
    cases hrn : rename_columns data with
    | error e =>
      have hk := rename_columns_error_kind hrn
      rw [hk] at hrn
      simp only [process_tick, fetch_data_and_save, load_new_json, hrn] at h
      cases h
    | ok renamed =>
      rw [process_tick_success_eq df db data renamed f hrn] at h ⊢
      by_cases hlen : 30 < ((collect_changes (toRows renamed) df).2).length
      · rw [if_pos hlen] at h ⊢
        exact hlen
      · rw [if_neg hlen] at h
        by_cases hemp : ((collect_changes (toRows renamed) df).1).isEmpty = true
        · rw [if_pos hemp] at h; cases h
        · rw [if_neg hemp] at h
          cases hres : (write_to_postgresql db (collect_changes (toRows renamed) df).1 f).2 with
          | ok u => rw [hres] at h; cases h
          | error e =>
            rw [hres] at h
            have hpair : write_to_postgresql db (collect_changes (toRows renamed) df).1 f =
                ((write_to_postgresql db (collect_changes (toRows renamed) df).1 f).1,
                 Except.error e) := by
              rw [← hres]
            rcases write_error_is_dbInsert db _ _ f e hpair with ⟨c, hc⟩
            rw [hc] at h
            cases h

theorem process_tick_error_committed (df : List StateEntry) (db : DB)
    (inp : TickInput) (e : Err)
    (h : (process_tick df db inp).result = Except.error e) :
    (process_tick df db inp).db.committed = db.committed := by
  obtain ⟨resp, f⟩ := inp
  cases resp with
  | transportFault => rfl
  | badStatus c => rfl
  | success data =>
    cases hrn : rename_columns data with
    | error e2 =>
      simp only [process_tick, fetch_data_and_save, load_new_json, hrn]
    | ok renamed =>
      rw [process_tick_success_eq df db data renamed f hrn] at h ⊢
      by_cases hlen : 30 < ((collect_changes (toRows renamed) df).2).length
      · rw [if_pos hlen]
      · rw [if_neg hlen] at h ⊢
        by_cases hemp : ((collect_changes (toRows renamed) df).1).isEmpty = true
        · rw [if_pos hemp]
        · rw [if_neg hemp] at h ⊢
          cases hres : (write_to_postgresql db (collect_changes (toRows renamed) df).1 f).2 with
          | ok u => rw [hres] at h; cases h
          | error e2 =>
            have hpair : write_to_postgresql db (collect_changes (toRows renamed) df).1 f =
                ((write_to_postgresql db (collect_changes (toRows renamed) df).1 f).1,
                 Except.error e2) := by
              rw [← hres]
            exact write_committed_of_error db _ _ f e2 hpair

theorem loop_body_event_result (ls : LoopState) (db : DB) (inp : TickInput) :
    (loop_body ls db inp).2.2.result = (process_tick ls.df_state db inp).result := by
  unfold loop_body
  cases hres : (process_tick ls.df_state db inp).result with
  | ok cs => simp [hres]
  | error e => cases e <;> simp [hres]

theorem loop_body_terminated_iff (ls : LoopState) (db : DB) (inp : TickInput) :
    (loop_body ls db inp).1.terminated = true ↔
      (process_tick ls.df_state db inp).result =
        Except.error Err.criticalDataFrame := by
  unfold loop_body
  cases hres : (process_tick ls.df_state db inp).result with
  | ok cs => simp [hres]
  | error e => cases e <;> simp [hres]

theorem loop_body_sleep_of_error (ls : LoopState) (db : DB) (inp : TickInput)
    (e : Err) (he : (process_tick ls.df_state db inp).result = Except.error e)
    (hne : e ≠ Err.criticalDataFrame) :
    (loop_body ls db inp).2.2.sleep = some 60 := by
  unfold loop_body
  cases e
  case criticalDataFrame => exact absurd rfl hne
  all_goals simp [he]

theorem loop_body_db (ls : LoopState) (db : DB) (inp : TickInput) :
    (loop_body ls db inp).2.1 = (process_tick ls.df_state db inp).db := by
  unfold loop_body
  cases hres : (process_tick ls.df_state db inp).result with
  | ok cs => simp [hres]
  | error e => cases e <;> simp [hres]

theorem run_cons_terminated (ls : LoopState) (db : DB) (inp : TickInput)
    (rest : List TickInput) (h : (loop_body ls db inp).1.terminated = true) :
    run ls db (inp :: rest) =
      ((loop_body ls db inp).1, (loop_body ls db inp).2.1,
       [(loop_body ls db inp).2.2]) := by
  unfold run
  rw [if_pos h]

theorem run_cons_continue (ls : LoopState) (db : DB) (inp : TickInput)
    (rest : List TickInput) (h : (loop_body ls db inp).1.terminated = false) :
    run ls db (inp :: rest) =
      ((run (loop_body ls db inp).1 (loop_body ls db inp).2.1 rest).1,
       (run (loop_body ls db inp).1 (loop_body ls db inp).2.1 rest).2.1,
       (loop_body ls db inp).2.2 ::
         (run (loop_body ls db inp).1 (loop_body ls db inp).2.1 rest).2.2) := by
  conv_lhs => rw [run]
  rw [if_neg (by simp [h])]

/-!
Claim theorems. Each claim of the specification is settled by exactly one
theorem below (plus, where applicable, a witness instantiating it and a
counterexample refuting the claim as originally stated).
-/

/-- C1 (amended): for every state and every batch in which no two records
have `==`-equal facility ids, a record of the batch is emitted into the
changes output if and only if its `parking_id` has no `==`-matching entry
in the input state, or the first matching entry's `ferme` or
`nb_of_available_parking_spaces` differs from the record's value under the
scalar equality the code uses (under which a NaN/null value is unequal to
everything, including itself). In particular a record whose id is absent
from the state is always emitted. -/
theorem changes_mem_iff_input_state :
    ∀ (batch : List Row),
      batch.Pairwise (fun a b => peq a.parking_id b.parking_id = false) →
      ∀ r ∈ batch, ∀ st : List StateEntry,
        (r ∈ (collect_changes batch st).1 ↔
          (findEntry st r.parking_id = none ∨
           ∃ e, findEntry st r.parking_id = some e ∧
             (peq e.ferme r.ferme = false ∨
              peq e.nb_of_available_parking_spaces
                r.nb_of_available_parking_spaces = false))) := by
  intro batch hpw r hr st
  rw [mem_changes_iff_aux batch hpw hr st]
  exact changed_iff_spec

/-- C1 witness: a first-sighting record is emitted. -/
theorem changes_mem_iff_input_state_witness :
    (⟨PVal.str "A", PVal.bool false, PVal.int 1, PVal.str "d"⟩ : Row) ∈
      (collect_changes [⟨PVal.str "A", PVal.bool false, PVal.int 1, PVal.str "d"⟩]
        ([] : List StateEntry)).1 :=
  (changes_mem_iff_input_state
    [⟨PVal.str "A", PVal.bool false, PVal.int 1, PVal.str "d"⟩]
    (by simp)
    ⟨PVal.str "A", PVal.bool false, PVal.int 1, PVal.str "d"⟩
    (by simp) []).mpr (Or.inl rfl)

/-- C1 counterexample: with two records sharing one facility id, the second
record's id is absent from the input state, yet it is not emitted — against
the claim that such a record is always emitted for every batch and state. -/
theorem changes_mem_iff_input_state_cex :
    findEntry ([] : List StateEntry) (PVal.str "A") = none ∧
    (⟨PVal.str "A", PVal.bool false, PVal.int 1, PVal.str "d2"⟩ : Row) ∈
      ([⟨PVal.str "A", PVal.bool false, PVal.int 1, PVal.str "d1"⟩,
        ⟨PVal.str "A", PVal.bool false, PVal.int 1, PVal.str "d2"⟩] : List Row) ∧
    (⟨PVal.str "A", PVal.bool false, PVal.int 1, PVal.str "d2"⟩ : Row) ∉
      (collect_changes
        [⟨PVal.str "A", PVal.bool false, PVal.int 1, PVal.str "d1"⟩,
         ⟨PVal.str "A", PVal.bool false, PVal.int 1, PVal.str "d2"⟩]
        ([] : List StateEntry)).1 := by
  decide

/-- C2 (confirmed): `validate_df_state_length` succeeds exactly on states of
at most 30 rows and fails with `CriticalDataFrameError` above that; in a
tick whose differ-updated state exceeds 30 the tick's outcome is that error;
conversely a critical outcome implies the updated state exceeds 30; the
supervisor breaks out of the loop on this error before any further tick is
consumed, and on no other error. -/
theorem state_ceiling_fatal :
    (∀ st : List StateEntry,
       (validate_df_state_length st = Except.ok () ↔ st.length ≤ 30)) ∧
    (∀ st : List StateEntry, 30 < st.length →
       validate_df_state_length st = Except.error Err.criticalDataFrame) ∧
    (∀ (df : List StateEntry) (db : DB) (inp : TickInput),
       (process_tick df db inp).result = Except.error Err.criticalDataFrame →
       30 < (process_tick df db inp).df_state.length) ∧
    (∀ (df : List StateEntry) (db : DB) (data renamed : RawDF)
       (f : Option (Nat × String)),
       rename_columns data = Except.ok renamed →
       30 < ((collect_changes (toRows renamed) df).2).length →
       (process_tick df db ⟨FetchResponse.success data, f⟩).result =
         Except.error Err.criticalDataFrame) ∧
    (∀ (ls : LoopState) (db : DB) (inp : TickInput) (rest : List TickInput),
       (process_tick ls.df_state db inp).result =
         Except.error Err.criticalDataFrame →
       (loop_body ls db inp).1.terminated = true ∧
       run ls db (inp :: rest) =
         ((loop_body ls db inp).1, (loop_body ls db inp).2.1,
          [(loop_body ls db inp).2.2])) ∧
    (∀ (ls : LoopState) (db : DB) (inp : TickInput) (e : Err),
       (process_tick ls.df_state db inp).result = Except.error e →
       e ≠ Err.criticalDataFrame →
       (loop_body ls db inp).1.terminated = false) := by
  refine ⟨?_, ?_, ?_, ?_, ?_, ?_⟩
  · intro st
    unfold validate_df_state_length
    by_cases h : 30 < st.length
    · rw [if_pos h]
      constructor
      · intro hh; cases hh
      · intro hh; omega
    · rw [if_neg h]
      constructor
      · intro _; omega
      · intro _; rfl
  · intro st h
    unfold validate_df_state_length
    rw [if_pos h]
  · exact process_tick_critical_length
  · intro df db data renamed f h1 h2
    rw [process_tick_ceiling df db data renamed f h1 h2]
  · intro ls db inp rest h
    have ht := (loop_body_terminated_iff ls db inp).mpr h
    exact ⟨ht, run_cons_terminated ls db inp rest ht⟩
  · intro ls db inp e h hne
    cases htt : (loop_body ls db inp).1.terminated with
    | false => rfl
    | true =>
      have h2 := (loop_body_terminated_iff ls db inp).mp htt
      rw [h] at h2
      injection h2 with h3
      exact absurd h3 hne

/-- C2 witness: a 31-row state makes `validate_df_state_length` fail with
the critical error. -/
theorem state_ceiling_fatal_witness :
    validate_df_state_length
      ((List.range 31).map fun i => ⟨PVal.int i, PVal.bool false, PVal.int 0⟩) =
      Except.error Err.criticalDataFrame :=
  state_ceiling_fatal.2.1 _ (by decide)

/-- C3 (confirmed): the loop breaks only when the tick produced the
critical state-size error; any other error leaves the loop unterminated,
sleeps the standard 60-second interval, commits nothing to the store for
that tick, and the run continues with the remaining ticks. -/
theorem recoverable_faults_continue :
    (∀ (ls : LoopState) (db : DB) (inp : TickInput),
       (loop_body ls db inp).1.terminated = true →
       (loop_body ls db inp).2.2.result = Except.error Err.criticalDataFrame) ∧
    (∀ (ls : LoopState) (db : DB) (inp : TickInput) (e : Err),
       (loop_body ls db inp).2.2.result = Except.error e →
       e ≠ Err.criticalDataFrame →
       (loop_body ls db inp).1.terminated = false ∧
       (loop_body ls db inp).2.2.sleep = some 60 ∧
       (loop_body ls db inp).2.1.committed = db.committed ∧
       ∀ rest : List TickInput,
         run ls db (inp :: rest) =
           ((run (loop_body ls db inp).1 (loop_body ls db inp).2.1 rest).1,
            (run (loop_body ls db inp).1 (loop_body ls db inp).2.1 rest).2.1,
            (loop_body ls db inp).2.2 ::
              (run (loop_body ls db inp).1 (loop_body ls db inp).2.1 rest).2.2)) := by
  constructor
  · intro ls db inp h
    rw [loop_body_event_result]
    exact (loop_body_terminated_iff ls db inp).mp h
  · intro ls db inp e h hne
    rw [loop_body_event_result] at h
    have hterm : (loop_body ls db inp).1.terminated = false := by
      cases htt : (loop_body ls db inp).1.terminated with
      | false => rfl
      | true =>
        have h2 := (loop_body_terminated_iff ls db inp).mp htt
        rw [h] at h2
        injection h2 with h3
        exact absurd h3 hne
    refine ⟨hterm, loop_body_sleep_of_error ls db inp e h hne, ?_, ?_⟩
    · rw [loop_body_db]
      exact process_tick_error_committed ls.df_state db inp e h
    · intro rest
      exact run_cons_continue ls db inp rest hterm

/-- C3 witness: a transport fault leaves the loop running. -/
theorem recoverable_faults_continue_witness :
    (loop_body ⟨[], 1, false⟩ ⟨[], []⟩
      ⟨FetchResponse.transportFault, none⟩).1.terminated = false :=
  (recoverable_faults_continue.2 ⟨[], 1, false⟩ ⟨[], []⟩
    ⟨FetchResponse.transportFault, none⟩ Err.fetchTransport
    (by decide) (by decide)).1

/-- C4 (confirmed): the per-tick write is atomic — if any insert of the
batch fails, the committed store is unchanged (the whole batch is rolled
back) and the error is re-raised carrying the underlying cause; if no
insert fails, all of the batch's rows are committed together. -/
theorem write_atomicity :
    (∀ (db : DB) (changes : List Row) (i : Nat) (c : String),
       i < changes.length →
       write_to_postgresql db changes (some (i, c)) =
         (⟨db.committed, []⟩, Except.error (Err.dbInsert c))) ∧
    (∀ (db : DB) (changes : List Row),
       write_to_postgresql db changes none =
         (⟨db.committed ++ (db.pending ++ changes.map rowTuple), []⟩,
          Except.ok ())) :=
  ⟨fun db changes i c h => write_fail db changes i c h, write_ok⟩

/-- C4 witness: a failing first insert rolls the batch back and re-raises
the cause. -/
theorem write_atomicity_witness :
    write_to_postgresql ⟨[], []⟩
      [⟨PVal.str "A", PVal.bool false, PVal.int 1, PVal.str "d"⟩]
      (some (0, "duplicate key")) =
      (⟨[], []⟩, Except.error (Err.dbInsert "duplicate key")) :=
  write_atomicity.1 ⟨[], []⟩ _ 0 "duplicate key" (by decide)

/-- C5 (amended): when every record's compared values are self-comparable
(no NaN/null ids, flags or counts) and no two records share a `==`-equal
facility id, running the differ a second time with the same batch yields an
empty changes list and leaves the state exactly as after the first run. -/
theorem collect_changes_convergence :
    ∀ (batch : List Row),
      (∀ r ∈ batch, peq r.parking_id r.parking_id = true ∧
        peq r.ferme r.ferme = true ∧
        peq r.nb_of_available_parking_spaces
          r.nb_of_available_parking_spaces = true) →
      batch.Pairwise (fun a b => peq a.parking_id b.parking_id = false) →
      ∀ st : List StateEntry,
        (collect_changes batch (collect_changes batch st).2).1 = [] ∧
        (collect_changes batch (collect_changes batch st).2).2 =
          (collect_changes batch st).2 := by
  intro batch hself hpw st
  have h := collect_changes_idem_aux batch hself hpw st
  exact ⟨by rw [h], by rw [h]⟩

/-- C5 witness: the differ converges in one step on a plain batch. -/
theorem collect_changes_convergence_witness :
    (collect_changes [⟨PVal.str "A", PVal.bool false, PVal.int 1, PVal.str "d"⟩]
      ((collect_changes
        [⟨PVal.str "A", PVal.bool false, PVal.int 1, PVal.str "d"⟩]
        ([] : List StateEntry)).2)).1 = [] :=
  (collect_changes_convergence
    [⟨PVal.str "A", PVal.bool false, PVal.int 1, PVal.str "d"⟩]
    (by decide) (by simp) []).1

/-- C5 counterexample: a record with a NaN available-spaces value is
re-emitted by the second run of the differ, so the second changes list is
not empty. -/
theorem collect_changes_convergence_cex :
    (collect_changes [⟨PVal.str "A", PVal.bool false, PVal.nan, PVal.str "d"⟩]
      ((collect_changes
        [⟨PVal.str "A", PVal.bool false, PVal.nan, PVal.str "d"⟩]
        ([] : List StateEntry)).2)).1 ≠ [] := by
  decide

/-- C6 (amended): in a batch where no two records share a `==`-equal id, a
record whose first matching state row `==`-equals it on both compared
fields is excluded from the changes and that state row is found unchanged
after the whole batch; a batch in which every record matches its state row
exactly leaves the entire state unchanged and emits nothing. -/
theorem exact_match_no_emit :
    (∀ (batch : List Row),
       batch.Pairwise (fun a b => peq a.parking_id b.parking_id = false) →
       ∀ r ∈ batch, ∀ (st : List StateEntry) (e : StateEntry),
         findEntry st r.parking_id = some e →
         peq e.ferme r.ferme = true →
         peq e.nb_of_available_parking_spaces
           r.nb_of_available_parking_spaces = true →
         r ∉ (collect_changes batch st).1 ∧
           findEntry (collect_changes batch st).2 r.parking_id = some e) ∧
    (∀ (batch : List Row) (st : List StateEntry),
       (∀ r ∈ batch, ∃ e, findEntry st r.parking_id = some e ∧
         peq e.ferme r.ferme = true ∧
         peq e.nb_of_available_parking_spaces
           r.nb_of_available_parking_spaces = true) →
       collect_changes batch st = ([], st)) := by
  constructor
  · intro batch hpw r hr st e he hf hn
    exact exact_match_aux hf hn batch hpw hr st he
  · exact all_match_noop

/-- C6 witness: an exactly-matching record is not emitted. -/
theorem exact_match_no_emit_witness :
    (⟨PVal.str "A", PVal.bool false, PVal.int 5, PVal.str "d"⟩ : Row) ∉
      (collect_changes
        [⟨PVal.str "A", PVal.bool false, PVal.int 5, PVal.str "d"⟩]
        [⟨PVal.str "A", PVal.bool false, PVal.int 5⟩]).1 :=
  (exact_match_no_emit.1
    [⟨PVal.str "A", PVal.bool false, PVal.int 5, PVal.str "d"⟩]
    (by simp)
    ⟨PVal.str "A", PVal.bool false, PVal.int 5, PVal.str "d"⟩
    (by simp)
    [⟨PVal.str "A", PVal.bool false, PVal.int 5⟩]
    ⟨PVal.str "A", PVal.bool false, PVal.int 5⟩
    (by decide) (by decide) (by decide)).1

/-- C6 counterexample: an earlier batch record with the same facility id
overwrites the state row, so a later record that exactly matches its entry
in the input state is nevertheless emitted — against the claim as stated
for every batch. -/
theorem exact_match_no_emit_cex :
    findEntry [⟨PVal.str "A", PVal.bool false, PVal.int 1⟩] (PVal.str "A") =
      some ⟨PVal.str "A", PVal.bool false, PVal.int 1⟩ ∧
    (⟨PVal.str "A", PVal.bool false, PVal.int 1, PVal.str "d2"⟩ : Row) ∈
      (collect_changes
        [⟨PVal.str "A", PVal.bool false, PVal.int 2, PVal.str "d1"⟩,
         ⟨PVal.str "A", PVal.bool false, PVal.int 1, PVal.str "d2"⟩]
        [⟨PVal.str "A", PVal.bool false, PVal.int 1⟩]).1 := by
  decide

/-- C7 (amended): `rename_columns` fails if and only if some required
column name is absent from the batch's columns; the failure is the bare
`ValueError`, which carries no record of which names were missing; success
or failure depends only on the column labels, never on the cell values; and
on success the fixed upstream-to-canonical renaming is applied with every
row left untouched. -/
theorem rename_columns_spec :
    (∀ df : RawDF,
       (rename_columns df = Except.error Err.valueError ↔
        ∃ c ∈ REQUIRED_COLUMNS_SET, df.columns.contains c = false)) ∧
    (∀ df : RawDF,
       (∀ c ∈ REQUIRED_COLUMNS_SET, df.columns.contains c = true) →
       rename_columns df = Except.ok ⟨df.columns.map renameCol, df.rows⟩) ∧
    (∀ (cols : List String) (rows1 rows2 : List (List PVal)),
       (rename_columns ⟨cols, rows1⟩ = Except.error Err.valueError ↔
        rename_columns ⟨cols, rows2⟩ = Except.error Err.valueError)) := by
  refine ⟨?_, ?_, ?_⟩
  · intro df
    unfold rename_columns
    by_cases h : REQUIRED_COLUMNS_SET.all (fun c => df.columns.contains c) = true
    · rw [if_pos h]
      simp only [List.all_eq_true] at h
      constructor
      · intro hh; cases hh
      · rintro ⟨c, hc, hcc⟩
        rw [h c hc] at hcc
        cases hcc
    · rw [if_neg h]
      simp only [List.all_eq_true] at h
      push_neg at h
      rcases h with ⟨c, hc, hcc⟩
      constructor
      · intro _
        refine ⟨c, hc, ?_⟩
        revert hcc
        cases df.columns.contains c <;> simp
      · intro _; rfl
  · intro df hall
    unfold rename_columns
    rw [if_pos (List.all_eq_true.mpr hall)]
  · intro cols rows1 rows2
    simp only [rename_columns]
    by_cases h : REQUIRED_COLUMNS_SET.all (fun c => cols.contains c) = true
    · rw [if_pos h, if_pos h]
      constructor
      · intro hh; cases hh
      · intro hh; cases hh
    · rw [if_neg h, if_neg h]

/-- C7 witness: with all required columns present the fixed renaming is
applied and no values are inspected. -/
theorem rename_columns_spec_witness :
    rename_columns ⟨REQUIRED_COLUMNS_SET, []⟩ =
      Except.ok ⟨REQUIRED_COLUMNS_SET.map renameCol, []⟩ :=
  rename_columns_spec.2.1 ⟨REQUIRED_COLUMNS_SET, []⟩ (by decide)

/-- C7 counterexample: two batches with different sets of missing required
columns produce identical errors, so the raised error cannot carry the set
of missing field names — against the claim that it does. -/
theorem rename_columns_spec_cex :
    rename_columns ⟨["mv:currentValue", "ferme", "Parking_schema:identifier"], []⟩ =
      rename_columns ⟨[], []⟩ ∧
    REQUIRED_COLUMNS_SET.filter
        (fun c =>
          !(["mv:currentValue", "ferme",
             "Parking_schema:identifier"] : List String).contains c) ≠
      REQUIRED_COLUMNS_SET.filter
        (fun c => !([] : List String).contains c) := by
  decide

/-- C8 (amended): a 200 response saves the parsed payload for the tick; a
transport-level fault raises an error that the supervisor handles as a
recoverable per-tick fault (no state or store change, 60-second sleep, loop
continues); a non-200 response raises no error at all — the fetcher logs it
and saves nothing, so the supervisor skips the tick's diff/persist,
sleeps, increments the request counter and continues polling. -/
theorem fetch_and_supervisor_outcomes :
    (∀ d : RawDF,
       fetch_data_and_save (FetchResponse.success d) = Except.ok (some d)) ∧
    (∀ c : Nat,
       fetch_data_and_save (FetchResponse.badStatus c) = Except.ok none) ∧
    (fetch_data_and_save FetchResponse.transportFault =
      Except.error Err.fetchTransport) ∧
    (∀ (ls : LoopState) (db : DB) (c : Nat) (f : Option (Nat × String)),
       loop_body ls db ⟨FetchResponse.badStatus c, f⟩ =
         (⟨ls.df_state, ls.request_id + 1, false⟩, db,
          ⟨Except.ok [], some REQUEST_FREQUENCY⟩)) ∧
    (∀ (ls : LoopState) (db : DB) (f : Option (Nat × String)),
       loop_body ls db ⟨FetchResponse.transportFault, f⟩ =
         (⟨ls.df_state, ls.request_id, false⟩, db,
          ⟨Except.error Err.fetchTransport, some 60⟩)) :=
  ⟨fun _ => rfl, fun _ => rfl, rfl, fun _ _ _ _ => rfl, fun _ _ _ => rfl⟩

/-- C8 counterexample: a non-200 response is not treated as an error by the
fetch operation — it returns successfully with no payload — against the
claim that any non-success response is a fetch failure. -/
theorem fetch_and_supervisor_outcomes_cex :
    fetch_data_and_save (FetchResponse.badStatus 500) = Except.ok none ∧
    fetch_data_and_save (FetchResponse.badStatus 500) ≠
      Except.error Err.fetchTransport :=
  ⟨rfl, by decide⟩

/-- C9 (code-bug evidence): when the initial connection attempt fails the
`finally` clause evaluates `if conn` with `conn` never assigned, so `main`
raises `UnboundLocalError` instead of closing anything, and in the
cursor-failure sub-case the already-created connection is leaked; only on
the successful-connection paths is the connection closed on exit. -/
theorem conn_close_exit_paths :
    main ⟨true, ConnectOutcome.cursorRaises, []⟩ =
      ⟨some Err.unboundLocal, false, true, []⟩ ∧
    main ⟨true, ConnectOutcome.connectRaises, []⟩ =
      ⟨some Err.unboundLocal, false, false, []⟩ ∧
    (∀ ticks : List TickInput,
       (main ⟨true, ConnectOutcome.success, ticks⟩).connClosed = true ∧
       (main ⟨true, ConnectOutcome.success, ticks⟩).connLeaked = false) :=
  ⟨rfl, rfl, fun _ => ⟨rfl, rfl⟩⟩

/-- C10 (confirmed): a record whose available-spaces value is NaN both in
the batch and in its state rows (all of which already equal the record's
projection) is judged changed, emitted, and leaves the state untouched, so
the same record is re-emitted by the differ on every subsequent tick. -/
theorem nan_reemitted_every_tick (st : List StateEntry) (r : Row)
    (hnan : r.nb_of_available_parking_spaces = PVal.nan)
    (hex : st.any (fun e => peq e.parking_id r.parking_id) = true)
    (hall : ∀ e ∈ st, peq e.parking_id r.parking_id = true → e = rowEntry r) :
    parking_state_has_changed r st = true ∧
    collect_changes [r] st = ([r], st) ∧
    ∀ n, ∀ cs ∈ runDiffTicks [r] st n, cs = [r] := by
  refine ⟨?_, nan_tick st r hnan hex hall, nan_ticks st r hnan hex hall⟩
  apply nan_changed hnan
  rcases List.any_eq_true.mp hex with ⟨x, hx, hpx⟩
  have h1 : (List.find? (fun e => peq e.parking_id r.parking_id) st).isSome :=
    List.find?_isSome.mpr ⟨x, hx, by simpa using hpx⟩
  rcases Option.isSome_iff_exists.mp h1 with ⟨e, he⟩
  exact ⟨e, he⟩

/-- C10 witness: a concrete NaN-valued facility is re-emitted although its
state entry is identical. -/
theorem nan_reemitted_every_tick_witness :
    parking_state_has_changed
      ⟨PVal.str "A", PVal.bool false, PVal.nan, PVal.str "d"⟩
      [⟨PVal.str "A", PVal.bool false, PVal.nan⟩] = true :=
  (nan_reemitted_every_tick
    [⟨PVal.str "A", PVal.bool false, PVal.nan⟩]
    ⟨PVal.str "A", PVal.bool false, PVal.nan, PVal.str "d"⟩
    rfl (by decide) (by decide)).1

end CollectData
